import Mathlib

/-!
Verification development for the `oi` streaming completion engine.

The definitions below are a shallow embedding of the Go sources:
  * `src/stream.go`    — `Mods.setupStreamContext` (turn setup)
  * `src/mods.go`      — `Mods.retry`, `Mods.startCompletionCmd`
  * `src/internal/ollama/ollama.go` — `Client.Request` and the `Stream`
    state machine (`Next`, `Current`, `CallTools`, `Close`, `Err`).

Go strings are modelled as Lean `String` (the source slices bytes; the
model slices characters — the claims under scrutiny speak of characters).
Go channels are modelled by the list of units the backend goroutine will
deliver plus a closed flag; machine integers are modelled as `Int`/`Nat`
(no overflow is reachable in any claim).  Fallible Go code returns
`Except`.  Collaborators that live outside `src/` (the cache, `loadMsg`,
`mcpTools`, the backend transport) are passed in as explicit parameters,
exactly as the source receives them through struct fields or closures.
-/

namespace Oi

/-- Modelled from the spec: `internal/proto` message roles (the package is
not under `src/`; §3 of the spec lists `System|User|Assistant|Tool`). -/
inductive Role
  | system
  | user
  | assistant
  | tool
deriving DecidableEq, Repr

/-- Modelled from the spec: `internal/proto.ToolCall`
`(index, name, raw argument bytes)`; the raw bytes are carried as a
`String`, their backend-defined encoding is never inspected. -/
structure ToolCall where
  index : Int
  name : String
  arguments : String
deriving DecidableEq, Repr

/-- Modelled from the spec: `internal/proto.Message`
`(role, content, tool_calls, optional tool_call_id)`. -/
structure Message where
  role : Role
  content : String
  toolCalls : List ToolCall := []
  toolCallID : Option String := none
deriving DecidableEq, Repr

/-- Modelled from the spec: the outcome of executing one tool call —
success with a textual result, or failure with an error description. -/
structure ToolCallStatus where
  name : String
  result : String
  isErr : Bool
deriving DecidableEq, Repr

/-- Modelled from the spec: a declared tool (`internal/proto`); only its
name matters to the core, the schema is opaque. -/
structure ToolDef where
  name : String
deriving DecidableEq, Repr

/-- Sampling values that Go carries as `float64` are carried opaquely as
rationals; the model never computes with them, it only forwards them. -/
abbrev GoFloat := Rat

/-- Modelled from the spec: `internal/proto.Request` — history, model,
sampling parameters (each optional meaning "unset"), stop sequences and
declared tools.  The tool-invocation callback the source stores next to
these fields is passed separately to the operations that use it. -/
structure Request where
  messages : List Message := []
  api : String := ""
  model : String := ""
  user : String := ""
  temperature : Option GoFloat := none
  topP : Option GoFloat := none
  topK : Option Int := none
  stop : List String := []
  maxTokens : Option Int := none
  tools : List ToolDef := []
deriving DecidableEq, Repr

/-- Modelled from the spec: `internal/proto.Chunk`, one incremental
fragment of assistant text. -/
structure Chunk where
  content : String
deriving DecidableEq, Repr

/-- Embeds `modsError` from `src/mods_error` usage sites: an underlying error
plus a human-readable reason. -/
structure ModsError where
  err : String
  reason : String
deriving DecidableEq, Repr

/-- Embeds `Model` from `src/config.go` (the fields the claims touch; `Aliases`,
`Fallback`, `ThinkingBudget` are never read by the embedded code). -/
structure Model where
  name : String := ""
  api : String := ""
  MaxChars : Int := 0
deriving DecidableEq, Repr

/-- The slice of `Config` (`src/config.go`) read by `setupStreamContext`
and `startCompletionCmd`.  `PrefixText` embeds the Go field `Prefix`. -/
structure Config where
  NoCache : Bool := false
  cacheReadFromID : String := ""
  Format : Bool := false
  FormatAs : String := ""
  FormatText : List (String × String) := []
  Role : String := ""
  Roles : List (String × List String) := []
  PrefixText : String := ""
  NoLimit : Bool := false
  MaxInputChars : Int := 0
  Temperature : GoFloat := 0
  TopP : GoFloat := 0
  TopK : Int := 0
  MaxTokens : Int := 0
  Stop : List String := []
  MaxRetries : Nat := 0
deriving DecidableEq, Repr

/-- The reason string `setupStreamContext` wraps around a cache-read
failure (`src/stream.go`, the styled inline-code renders are flattened
to plain text). -/
def cacheReadReason : String :=
  "There was a problem reading the cache. Use --no-cache / NO_CACHE to disable it."

/-- Step 4 of `setupStreamContext` (`src/stream.go` lines 62–65): when a
prefix is configured, concatenate it with the content (with a blank line
in between, as the source does) and trim surrounding whitespace. -/
def combineContent (cfg : Config) (content : String) : String :=
  if cfg.PrefixText ≠ "" then (cfg.PrefixText ++ "\n\n" ++ content).trim else content

/-- Step 5 of `setupStreamContext` (`src/stream.go` lines 67–70): hard
character-limit truncation unless `NoLimit` is set.  The source slices
`content[:mod.MaxChars]` on bytes; the model slices the character list
(spec §9 flags this byte/character distinction as an open question). -/
def limitContent (cfg : Config) (mod : Model) (content : String) : String :=
  if ¬cfg.NoLimit ∧ (content.length : Int) > mod.MaxChars then
    String.mk (content.data.take mod.MaxChars.toNat)
  else content

/-- Step 6 of `setupStreamContext`: the new user message built from the
combined, limited content. -/
def mkUserMessage (cfg : Config) (mod : Model) (content : String) : Message :=
  { role := Role.user, content := limitContent cfg mod (combineContent cfg content) }

/-- Step 3a of `setupStreamContext`: the system/format instruction
message, inserted only when `Format` is on and the format text for
`FormatAs` is non-empty (a missing map entry reads as `""`, as in Go). -/
def formatMsgs (cfg : Config) : List Message :=
  let txt := (cfg.FormatText.lookup cfg.FormatAs).getD ""
  if cfg.Format ∧ txt ≠ "" then [{ role := Role.system, content := txt }] else []

/-- Step 3b of `setupStreamContext`: the role-preamble messages, in
role-definition order.  `loadMsg` resolves one configured role entry to
its content (that helper lives outside `src/`; it is passed in as a
parameter).  An unknown role and a failing load are both fatal. -/
def roleMsgs (cfg : Config) (loadMsg : String → Except String String) :
    Except ModsError (List Message) :=
  if cfg.Role = "" then Except.ok []
  else
    match cfg.Roles.lookup cfg.Role with
    | none => Except.error { err := "role " ++ cfg.Role ++ " does not exist", reason := "Could not use role" }
    | some roleSetup =>
      (roleSetup.mapM fun m =>
        (loadMsg m).mapError fun e => ({ err := e, reason := "Could not use role" } : ModsError)).map
        (List.map fun c => { role := Role.system, content := c })

/-- Steps 2–3 of `setupStreamContext` combined: the preamble prepended to
a brand-new conversation (format instruction, then the role messages). -/
def preambleMsgs (cfg : Config) (loadMsg : String → Except String String) :
    Except ModsError (List Message) :=
  (roleMsgs cfg loadMsg).map fun rs => formatMsgs cfg ++ rs

/-- Embeds `Mods.setupStreamContext` from `src/stream.go`: reset the history,
load it from the cache when a read key is configured and caching is on
(a read failure is fatal), insert the system/format and role preamble
only when the loaded history is empty, then append the new user message
built from prefix + content, trimmed and character-limited.  `cacheRead`
stands for `m.cache.Read(cfg.cacheReadFromID, &m.messages)` (the cache
collaborator lives outside `src/`). -/
def setupStreamContext (cfg : Config) (cacheRead : Except String (List Message))
    (loadMsg : String → Except String String) (content : String) (mod : Model) :
    Except ModsError (List Message) :=
  match (if cfg.NoCache = false ∧ cfg.cacheReadFromID ≠ "" then
           cacheRead.mapError fun e => ({ err := e, reason := cacheReadReason } : ModsError)
         else Except.ok []) with
  | Except.error e => Except.error e
  | Except.ok msgs =>
    match (if msgs.isEmpty then preambleMsgs cfg loadMsg else Except.ok msgs) with
    | Except.error e => Except.error e
    | Except.ok seeded => Except.ok (seeded ++ [mkUserMessage cfg mod content])

/-- Whatever branch `setupStreamContext` takes, a successful result ends
with the constructed user message. -/
theorem setupStreamContext_getLast (cfg : Config) (cacheRead : Except String (List Message))
    (loadMsg : String → Except String String) (content : String) (mod : Model)
    (out : List Message)
    (hok : setupStreamContext cfg cacheRead loadMsg content mod = Except.ok out) :
    out.getLast? = some (mkUserMessage cfg mod content) := by
  unfold setupStreamContext at hok
  split at hok
  · exact absurd hok (by simp)
  · split at hok
    · exact absurd hok (by simp)
    · injection hok with h
      subst h
      exact List.getLast?_concat _

/-- A non-empty history loaded from the cache is threaded through
unchanged: no preamble is inserted, only the user message is appended. -/
theorem setupStreamContext_cons (cfg : Config) (a : Message) (t : List Message)
    (loadMsg : String → Except String String) (content : String) (mod : Model)
    (hnc : cfg.NoCache = false) (hid : cfg.cacheReadFromID ≠ "") :
    setupStreamContext cfg (Except.ok (a :: t)) loadMsg content mod =
      Except.ok ((a :: t) ++ [mkUserMessage cfg mod content]) := by
  simp [setupStreamContext, hnc, hid, Except.mapError]

/-- Claim C4: for every prior history H and new input, turn setup yields a
history that ends in exactly the constructed user message and has H as a
prefix; when H is non-empty (loaded from cache), the result is literally
H followed by the user message — no system/format or role-preamble
message is inserted. -/
theorem c4_turn_setup (cfg : Config) (H : List Message)
    (loadMsg : String → Except String String) (content : String) (mod : Model)
    (out : List Message)
    (hnc : cfg.NoCache = false) (hid : cfg.cacheReadFromID ≠ "")
    (hok : setupStreamContext cfg (Except.ok H) loadMsg content mod = Except.ok out) :
    out.getLast? = some (mkUserMessage cfg mod content) ∧
    H <+: out ∧
    (H ≠ [] → out = H ++ [mkUserMessage cfg mod content]) := by
  refine ⟨setupStreamContext_getLast _ _ _ _ _ _ hok, ?_, ?_⟩
  · cases H with
    | nil => exact List.nil_prefix
    | cons a t =>
      rw [setupStreamContext_cons cfg a t loadMsg content mod hnc hid] at hok
      injection hok with h
      exact h ▸ List.prefix_append _ _
  · intro hne
    cases H with
    | nil => exact absurd rfl hne
    | cons a t =>
      rw [setupStreamContext_cons cfg a t loadMsg content mod hnc hid] at hok
      injection hok with h
      exact h.symm

def c4cfg : Config := { cacheReadFromID := "abc123" }

def c4mod : Model := { name := "llama3.2", MaxChars := 100 }

def c4prev : Message := { role := Role.user, content := "earlier turn" }

theorem c4_turn_setup_witness :
    [c4prev, mkUserMessage c4cfg c4mod "hi"].getLast? = some (mkUserMessage c4cfg c4mod "hi") ∧
    [c4prev] <+: [c4prev, mkUserMessage c4cfg c4mod "hi"] ∧
    ([c4prev] ≠ [] → [c4prev, mkUserMessage c4cfg c4mod "hi"] =
      [c4prev] ++ [mkUserMessage c4cfg c4mod "hi"]) :=
  c4_turn_setup c4cfg [c4prev] (fun _ => Except.ok "") "hi" c4mod _ rfl (by decide) rfl

/-- Claim C6: with truncation enabled (`NoLimit` false) and combined
content longer than the configured limit, the user message content is
cut to exactly the limit's number of characters; with `NoLimit` true the
full combined content is preserved regardless of its length. -/
theorem c6_char_limit (cfg : Config) (mod : Model) (content : String) :
    (cfg.NoLimit = false → 0 ≤ mod.MaxChars →
      ((combineContent cfg content).length : Int) > mod.MaxChars →
      (((mkUserMessage cfg mod content).content.length : Int) = mod.MaxChars)) ∧
    (cfg.NoLimit = true →
      (mkUserMessage cfg mod content).content = combineContent cfg content) := by
  constructor
  · intro hnl hpos hgt
    have hcond : ¬cfg.NoLimit ∧ ((combineContent cfg content).length : Int) > mod.MaxChars :=
      ⟨by simp [hnl], hgt⟩
    simp only [mkUserMessage, limitContent, if_pos hcond]
    have hmk : (String.mk ((combineContent cfg content).data.take mod.MaxChars.toNat)).length
        = min mod.MaxChars.toNat (combineContent cfg content).data.length := by
      show ((combineContent cfg content).data.take mod.MaxChars.toNat).length = _
      simp
    rw [hmk]
    have hlen : (combineContent cfg content).length = (combineContent cfg content).data.length := rfl
    rw [hlen] at hgt
    omega
  · intro hl
    simp [mkUserMessage, limitContent, hl]

def c6cfgA : Config := {}

def c6cfgB : Config := { NoLimit := true }

def c6mod : Model := { MaxChars := 2 }

theorem c6_char_limit_witness :
    (((mkUserMessage c6cfgA c6mod "hello").content.length : Int) = 2) ∧
    ((mkUserMessage c6cfgB c6mod "hello").content = combineContent c6cfgB "hello") :=
  ⟨(c6_char_limit c6cfgA c6mod "hello").1 rfl (by decide) (by decide),
   (c6_char_limit c6cfgB c6mod "hello").2 rfl⟩

/-- Claim C7: with a prefix configured, the new user message is the
prefix concatenated with the content (blank line in between, as in the
source) with surrounding whitespace trimmed, and the character limit is
applied to that combined, trimmed result. -/
theorem c7_prefix_concat_trim (cfg : Config) (cacheRead : Except String (List Message))
    (loadMsg : String → Except String String) (content : String) (mod : Model)
    (out : List Message)
    (hp : cfg.PrefixText ≠ "")
    (hok : setupStreamContext cfg cacheRead loadMsg content mod = Except.ok out) :
    out.getLast? = some
      { role := Role.user,
        content := limitContent cfg mod ((cfg.PrefixText ++ "\n\n" ++ content).trim) } := by
  rw [setupStreamContext_getLast _ _ _ _ _ _ hok]
  simp [mkUserMessage, combineContent, hp]

def c7cfg : Config := { PrefixText := "Summarize:" }

def c7mod : Model := { MaxChars := 100 }

theorem c7_prefix_concat_trim_witness :
    ([mkUserMessage c7cfg c7mod " data "] : List Message).getLast? = some
      { role := Role.user,
        content := limitContent c7cfg c7mod ((c7cfg.PrefixText ++ "\n\n" ++ " data ").trim) } :=
  c7_prefix_concat_trim c7cfg (Except.ok []) (fun _ => Except.ok "") " data " c7mod _
    (by decide) rfl

/-! ## Retry/backoff driver (`Mods.retry`, `src/mods.go` lines 259–267) -/

/-- What one invocation of `Mods.retry` does after a fatal turn error:
either surface the original error as terminal, or sleep for the given
number of milliseconds and resubmit the same input as a fresh turn. -/
inductive RetryOutcome
  | surfaceError
  | resubmit (sleepMs : Nat)
deriving DecidableEq, Repr

/-- Embeds `Mods.retry`: increment the attempt counter, surface the error once
the counter has reached `MaxRetries`, otherwise sleep
`100ms × 2^retries` (with the already-incremented counter, as in
`time.Millisecond * 100 * time.Duration(math.Pow(2, float64(m.retries)))`)
and resubmit.  Returns the outcome and the new counter. -/
def retry (maxRetries retries : Nat) : RetryOutcome × Nat :=
  let r := retries + 1
  if r ≥ maxRetries then (RetryOutcome.surfaceError, r)
  else (RetryOutcome.resubmit (100 * 2 ^ r), r)

/-- Feeding consecutive fatal turn errors into `retry`: returns the list
of backoff sleeps (in ms) performed and the ordinal of the error that
was surfaced as terminal.  `fuel` bounds the iteration. -/
def consecutiveErrorTrace : Nat → Nat → Nat → List Nat × Nat
  | 0, _, _ => ([], 0)
  | fuel + 1, maxRetries, retries =>
    match retry maxRetries retries with
    | (RetryOutcome.surfaceError, _) => ([], 1)
    | (RetryOutcome.resubmit ms, r) =>
      let rest := consecutiveErrorTrace fuel maxRetries r
      (ms :: rest.1, rest.2 + 1)

/-- Claim C2 as stated is false on the code: with `MaxRetries = 3` the
driver does not perform three sleeps of 200/400/800 ms with the fourth
error terminal — the counter is incremented before the
`retries >= MaxRetries` check, so the third consecutive error is already
terminal after only two sleeps. -/
theorem c2_retry_counterexample :
    ¬ consecutiveErrorTrace 10 3 0 = ([200, 400, 800], 4) := by decide

/-- Claim C2 amended: with `MaxRetries = 3`, each retried attempt sleeps
`100ms × 2^attempt` — two backoff sleeps of 200 ms and 400 ms — and the
third consecutive fatal error is surfaced as terminal. -/
theorem c2_retry_backoff :
    consecutiveErrorTrace 10 3 0 = ([100 * 2 ^ 1, 100 * 2 ^ 2], 3) ∧
    consecutiveErrorTrace 10 3 0 = ([200, 400], 3) := by decide

/-! ## The ollama backend client and stream
(`src/internal/ollama/ollama.go`) -/

namespace Ollama

/-- Embeds `api.ToolCallFunction` of the external ollama client library:
index, name and raw arguments of one requested call. -/
structure ApiToolCallFunction where
  index : Int
  name : String
  arguments : String
deriving DecidableEq, Repr

/-- Embeds `api.ToolCall` of the external ollama client library. -/
structure ApiToolCall where
  function : ApiToolCallFunction
deriving DecidableEq, Repr

/-- Embeds `api.Message` of the external ollama client library; its role is a
plain string (`""` in the zero value). -/
structure ApiMessage where
  role : String := ""
  content : String := ""
  toolCalls : List ApiToolCall := []
deriving DecidableEq, Repr

/-- One unit delivered on the response channel (`api.ChatResponse`):
a message fragment and the round-completion flag. -/
structure ChatResponse where
  message : ApiMessage := {}
  done : Bool := false
deriving DecidableEq, Repr

/-- A forwarded option value (`map[string]any` in Go); the model keys
the map as an association list in insertion order. -/
inductive OVal
  | str (s : String)
  | int (i : Int)
  | flt (q : GoFloat)
deriving DecidableEq, Repr

/-- Embeds `api.ChatRequest`: the outbound body `Client.Request` builds. -/
structure ChatRequest where
  model : String := ""
  messages : List ApiMessage := []
  streamFlag : Bool := true
  tools : List ToolDef := []
  options : List (String × OVal) := []
deriving DecidableEq, Repr

/-- Modelled from the spec: role-string conversion used by the
`toProtoMessage`/`fromProtoMessage` helpers of the ollama package (the
helper file is not under `src/`); §3 lists the four roles. -/
def toProtoRole (r : String) : Role :=
  if r = "system" then Role.system
  else if r = "user" then Role.user
  else if r = "tool" then Role.tool
  else Role.assistant

/-- The inverse rendering of a role to its wire string. -/
def fromProtoRole : Role → String
  | Role.system => "system"
  | Role.user => "user"
  | Role.assistant => "assistant"
  | Role.tool => "tool"

/-- Modelled from the spec: `toProtoMessage` converts an accumulated
`api.Message` into the `proto.Message` appended to the visible log. -/
def toProtoMessage (m : ApiMessage) : Message :=
  { role := toProtoRole m.role
    content := m.content
    toolCalls := m.toolCalls.map fun c =>
      { index := c.function.index, name := c.function.name, arguments := c.function.arguments } }

/-- Modelled from the spec: `fromProtoMessage`, the opposite direction,
used when a tool-result `proto.Message` joins the outbound request. -/
def fromProtoMessage (m : Message) : ApiMessage :=
  { role := fromProtoRole m.role
    content := m.content
    toolCalls := m.toolCalls.map fun c => { function := { index := c.index, name := c.name, arguments := c.arguments } } }

/-- Modelled from the spec: `fromProtoMessages` maps the conversion over
the request history, preserving order verbatim. -/
def fromProtoMessages (ms : List Message) : List ApiMessage :=
  ms.map fromProtoMessage

/-- Modelled from the spec: `fromMCPTools` converts the declared tools to
the wire shape; tool declarations are opaque to the core, so the
conversion carries them through unchanged. -/
def fromMCPTools (ts : List ToolDef) : List ToolDef := ts

/-- The outbound `api.ChatRequest` body assembled by `Client.Request`:
only the FIRST stop sequence is copied into the options, `MaxTokens`
maps to `num_ctx`, temperature and top-p are forwarded when set, and the
top-k parameter is never read at all. -/
def buildChatRequest (request : Request) : ChatRequest :=
  let o0 : List (String × OVal) := []
  let o1 := match request.stop with
    | s :: _ => o0 ++ [("stop", OVal.str s)]
    | [] => o0
  let o2 := match request.maxTokens with
    | some m => o1 ++ [("num_ctx", OVal.int m)]
    | none => o1
  let o3 := match request.temperature with
    | some t => o2 ++ [("temperature", OVal.flt t)]
    | none => o2
  let o4 := match request.topP with
    | some p => o3 ++ [("top_p", OVal.flt p)]
    | none => o3
  { model := request.model
    messages := fromProtoMessages request.messages
    streamFlag := true
    tools := fromMCPTools request.tools
    options := o4 }

/-- The benign "no content buffered yet" sentinel (`stream.ErrNoContent`,
modelled from the spec) versus any other response-channel failure. -/
inductive StreamErr
  | noContent
deriving DecidableEq, Repr

/-- The `Stream` state (`src/internal/ollama/ollama.go`): the in-flight
request, the fatal-error slot, the done flag, the response channel
(modelled as the list of units the backend goroutine will deliver plus a
closed flag), the accumulating assistant message, and the growing proto
message history.  The tool callback and the restart factory the source
stores as closures are passed to the operations that invoke them. -/
structure Stream where
  request : ChatRequest
  err : Option String := none
  done : Bool := false
  pending : List ChatResponse := []
  chClosed : Bool := false
  message : ApiMessage := {}
  messages : List Message := []
deriving DecidableEq, Repr

/-- Embeds `Stream.Next`: false once a fatal error has been recorded, otherwise
true exactly while the done flag is still unset. -/
def Stream.Next (s : Stream) : Bool :=
  if s.err.isSome then false else !s.done

/-- Embeds `Stream.Err`: the fatal-error slot. -/
def Stream.Err (s : Stream) : Option String := s.err

/-- Embeds `Stream.Messages`: the externally visible message log. -/
def Stream.Messages (s : Stream) : List Message := s.messages

/-- Folding one received response unit into the stream: the first unit's
role is recorded, content is appended in arrival order, tool-call
fragments accumulate, and `resp.Done` sets the done flag. -/
def Stream.fold (s : Stream) (resp : ChatResponse) (rest : List ChatResponse) :
    Except StreamErr Chunk × Stream :=
  (Except.ok { content := resp.message.content },
   { s with
     pending := rest
     message :=
       { role := if s.message.role = "" then resp.message.role else s.message.role
         content := s.message.content ++ resp.message.content
         toolCalls := s.message.toolCalls ++ resp.message.toolCalls }
     done := s.done || resp.done })

/-- Embeds `Stream.Current`: non-blocking select on the response channel — drain
one buffered unit if present (a receive on a closed channel yields the
zero value immediately, as in Go), otherwise report the benign
`ErrNoContent` sentinel without changing state. -/
def Stream.Current (s : Stream) : Except StreamErr Chunk × Stream :=
  match s.pending with
  | resp :: rest => s.fold resp rest
  | [] => if s.chClosed then s.fold {} [] else (Except.error StreamErr.noContent, s)

/-- A Go runtime panic reachable from the embedded code. -/
inductive Panic
  | closeOfClosedChannel
deriving DecidableEq, Repr

/-- Embeds `Stream.Close`: `close(s.respCh); s.done = true; return nil`.
Closing an already-closed Go channel panics at run time, which the model
surfaces as an explicit `Panic`. -/
def Stream.Close (s : Stream) : Except Panic Stream :=
  if s.chClosed then Except.error Panic.closeOfClosedChannel
  else Except.ok { s with chClosed := true, done := true }

/-- Modelled from the spec: `stream.CallTool` (package `internal/stream`,
not under `src/`) invokes the tool callback for one call and produces
the `Tool`-role result message referencing that call together with its
displayable status; a callback failure becomes a failed status whose
message still joins the history. -/
def CallTool (id name args : String) (tc : String → String → Except String String) :
    Message × ToolCallStatus :=
  match tc name args with
  | Except.ok res =>
    ({ role := Role.tool, content := res, toolCallID := some id },
     { name := name, result := res, isErr := false })
  | Except.error e =>
    ({ role := Role.tool, content := e, toolCallID := some id },
     { name := name, result := e, isErr := true })

/-- Embeds `Stream.CallTools`: if the round just finished (`done` set), append
the finalized assistant message to the outbound request history and the
visible log; with no pending tool calls return the empty status list
leaving the stream finished; otherwise execute every call in declared
order via the callback, appending each `Tool`-role result to both
histories, then reset the accumulator, the done flag and the error slot
and restart the backend exchange (`s.factory()`, modelled by `backend`
supplying the continuation round's deliveries on a fresh channel). -/
def Stream.CallTools (tc : String → String → Except String String)
    (backend : ChatRequest → List ChatResponse) (s : Stream) :
    List ToolCallStatus × Stream :=
  let s :=
    if s.done then
      { s with
        messages := s.messages ++ [toProtoMessage s.message]
        request := { s.request with messages := s.request.messages ++ [s.message] } }
    else s
  if s.message.toolCalls.isEmpty then ([], s)
  else
    let looped := s.message.toolCalls.foldl
      (fun (acc : List ToolCallStatus × Stream) call =>
        let res := CallTool (toString call.function.index) call.function.name
          call.function.arguments tc
        (acc.1 ++ [res.2],
         { acc.2 with
           request := { acc.2.request with
             messages := acc.2.request.messages ++ [fromProtoMessage res.1] }
           messages := acc.2.messages ++ [res.1] }))
      ([], s)
    let s2 := { looped.2 with message := {}, done := false, err := none }
    (looped.1, { s2 with pending := backend s2.request, chClosed := false })

/-- Embeds `Client.Request`: build the outbound body, then run the factory once —
fresh channel, cleared flags, and the backend goroutine feeding it. -/
def clientRequest (request : Request) (backend : ChatRequest → List ChatResponse) : Stream :=
  { request := buildChatRequest request
    err := none
    done := false
    pending := backend (buildChatRequest request)
    chClosed := false
    message := {}
    messages := request.messages }

/-- The orchestrator's drain loop (`receiveCompletionStreamCmd` in
`src/mods.go`): while `Next` allows it, poll `Current`, concatenate the
visible chunk contents in arrival order, and re-poll on the benign
no-content sentinel; `fuel` bounds the polling. -/
def drainVisible : Nat → Stream → String × Stream
  | 0, s => ("", s)
  | fuel + 1, s =>
    if s.Next then
      match s.Current with
      | (Except.ok c, s') =>
        let rest := drainVisible fuel s'
        (c.content ++ rest.1, rest.2)
      | (Except.error _, s') =>
        let rest := drainVisible fuel s'
        (rest.1, rest.2)
    else ("", s)

/-- Claim C9: `Next` returns false exactly when the backend has signaled
round completion (the done flag) or a fatal error sits in the stream's
error slot — and true otherwise, while another chunk may be available. -/
theorem c9_next_false_iff (s : Stream) :
    s.Next = false ↔ (s.Err.isSome = true ∨ s.done = true) := by
  cases h : s.err <;> simp [Stream.Next, Stream.Err, h]

def c8s : Stream := { request := { model := "llama3.2" } }

/-- Claim C8 names the intended contract (`Close` is idempotent), but the
code closes the Go response channel unconditionally, and closing an
already-closed channel panics: the first `Close` succeeds (channel
released, done forced), the second one crashes instead of succeeding. -/
theorem c8_close_not_idempotent :
    Stream.Close c8s = Except.ok { c8s with chClosed := true, done := true } ∧
    Stream.Close { c8s with chClosed := true, done := true } =
      Except.error Panic.closeOfClosedChannel :=
  ⟨rfl, rfl⟩

/-- Claim C1 amended: calling `CallTools` twice in a row on a finished
round with zero pending tool calls returns the empty list both times,
but the finalized assistant message is appended to the visible log and
to the outbound request history once per call — twice in total — because
the done flag stays set and the accumulator is never cleared on the
empty-tool-call path. -/
theorem c1_calltools_twice (tc : String → String → Except String String)
    (backend : ChatRequest → List ChatResponse) (s : Stream)
    (hd : s.done = true) (ht : s.message.toolCalls = []) :
    (s.CallTools tc backend).1 = [] ∧
    ((s.CallTools tc backend).2.CallTools tc backend).1 = [] ∧
    ((s.CallTools tc backend).2.CallTools tc backend).2.messages =
      s.messages ++ [toProtoMessage s.message, toProtoMessage s.message] ∧
    ((s.CallTools tc backend).2.CallTools tc backend).2.request.messages =
      s.request.messages ++ [s.message, s.message] := by
  simp [Stream.CallTools, hd, ht]

def c1s : Stream :=
  { request := { model := "llama3.2" }
    done := true
    message := { role := "assistant", content := "All done." }
    messages := [{ role := Role.user, content := "hi" }] }

def c1tc : String → String → Except String String := fun _ _ => Except.ok ""

def c1backend : ChatRequest → List ChatResponse := fun _ => []

theorem c1_calltools_twice_witness :
    (c1s.CallTools c1tc c1backend).1 = [] ∧
    ((c1s.CallTools c1tc c1backend).2.CallTools c1tc c1backend).1 = [] ∧
    ((c1s.CallTools c1tc c1backend).2.CallTools c1tc c1backend).2.messages =
      c1s.messages ++ [toProtoMessage c1s.message, toProtoMessage c1s.message] ∧
    ((c1s.CallTools c1tc c1backend).2.CallTools c1tc c1backend).2.request.messages =
      c1s.request.messages ++ [c1s.message, c1s.message] :=
  c1_calltools_twice c1tc c1backend c1s rfl rfl

/-- Claim C1 as stated is false on the code: on this finished stream with
zero tool calls, both back-to-back `CallTools` calls do return the empty
list, but the finalized assistant message lands in the message history
and the outbound request history twice, not exactly once. -/
theorem c1_counterexample :
    ((c1s.CallTools c1tc c1backend).1 = [] ∧
     ((c1s.CallTools c1tc c1backend).2.CallTools c1tc c1backend).1 = []) ∧
    ¬ (((c1s.CallTools c1tc c1backend).2.CallTools c1tc c1backend).2.messages =
        c1s.messages ++ [toProtoMessage c1s.message]) ∧
    ¬ (((c1s.CallTools c1tc c1backend).2.CallTools c1tc c1backend).2.request.messages =
        c1s.request.messages ++ [c1s.message]) := by decide

def c3call : ApiToolCall := { function := { index := 0, name := "get_time", arguments := "tz=UTC" } }

def c3s0 : Stream :=
  { request := { model := "llama3.2" }
    pending :=
      [{ message := { role := "assistant", content := "Hel" } },
       { message := { role := "assistant", content := "lo" } },
       { message := { role := "assistant", content := "", toolCalls := [c3call] }, done := true }]
    messages := [{ role := Role.user, content := "what time is it" }] }

def c3tc : String → String → Except String String := fun _ _ => Except.ok "noon"

def c3backend : ChatRequest → List ChatResponse := fun _ => []

/-- Claim C3: a backend that emits "Hel" then "lo" and then signals done
with one tool call attached yields the concatenated visible text
"Hello"; the subsequent `CallTools` returns exactly one status and grows
the message history by exactly two entries — the assistant message
carrying the tool call, then the `Tool`-role result referencing it. -/
theorem c3_stream_tool_round :
    (drainVisible 5 c3s0).1 = "Hello" ∧
    ((drainVisible 5 c3s0).2.CallTools c3tc c3backend).1 =
      [{ name := "get_time", result := "noon", isErr := false }] ∧
    ((drainVisible 5 c3s0).2.CallTools c3tc c3backend).2.messages =
      c3s0.messages ++
        [{ role := Role.assistant, content := "Hello",
           toolCalls := [{ index := 0, name := "get_time", arguments := "tz=UTC" }] },
         { role := Role.tool, content := "noon", toolCallID := some "0" }] := by decide

/-- Claim C10: the outbound body is entirely independent of the top-k
parameter and of every stop sequence after the first, and the forwarded
"stop" option is exactly the first configured stop sequence (absent when
none is configured). -/
theorem c10_first_stop_no_topk (req : Request) (k : Option Int) :
    buildChatRequest { req with topK := k } = buildChatRequest req ∧
    buildChatRequest { req with stop := req.stop.take 1 } = buildChatRequest req ∧
    (buildChatRequest req).options.lookup "stop" = req.stop.head?.map OVal.str := by
  obtain ⟨msgs, apiName, modelName, userName, temp, topPv, topKv, stopv, maxT, toolsv⟩ := req
  refine ⟨rfl, ?_, ?_⟩
  · cases stopv <;> rfl
  · cases stopv <;> cases maxT <;> cases temp <;> cases topPv <;>
      simp [buildChatRequest, List.lookup]

end Ollama

/-! ## Driving a turn (`Mods.startCompletionCmd`, `src/mods.go`) -/

/-- Embeds `API` from `src/config.go` (the fields the embedded code reads). -/
structure API where
  name : String := ""
  baseURL : String := ""
deriving DecidableEq, Repr

/-- The backend-facing steps of `startCompletionCmd`, recorded in the
order the source reaches them: creating the ollama client
(`ollama.New`) and opening the stream request (`client.Request`). -/
inductive Effect
  | clientCreate
  | openExchange
deriving DecidableEq, Repr

/-- Embeds `ptrOrNil` from `src/mods.go`: a negative sampling value means
"unset" and maps to `none`. -/
def ptrOrNil {α : Type} [Zero α] [LT α] [DecidableRel ((· < ·) : α → α → Prop)]
    (t : α) : Option α :=
  if t < 0 then none else some t

/-- Embeds `Mods.startCompletionCmd` (`src/mods.go`): resolve the model, reject
an unconfigured API, default the model's character limit from the
config, load the MCP tools, run turn setup (where a cache-read failure
is fatal), build the `Request`, and only then create the ollama client
and open the stream.  The external collaborators — `resolveModel`'s
outcome, `mcpTools`, the cache read, `loadMsg`, `ollama.New`'s outcome
and the backend transport — are passed in; the returned effect list
records which backend-facing steps ran. -/
def startCompletionCmd (cfg : Config)
    (resolve : Except ModsError (API × Model))
    (mcpToolsR : Except ModsError (List ToolDef))
    (cacheRead : Except String (List Message))
    (loadMsg : String → Except String String)
    (clientNew : Except String Unit)
    (backend : Ollama.ChatRequest → List Ollama.ChatResponse)
    (content : String) : List Effect × Except ModsError Ollama.Stream :=
  match resolve with
  | Except.error e => ([], Except.error e)
  | Except.ok (api, mod0) =>
    if api.name = "" then
      ([], Except.error { err := "Your configured API endpoint is: ollama",
                          reason := "The API endpoint is not configured." })
    else
      let mod := if mod0.MaxChars = 0 then { mod0 with MaxChars := cfg.MaxInputChars } else mod0
      match mcpToolsR with
      | Except.error e => ([], Except.error e)
      | Except.ok tools =>
        match setupStreamContext cfg cacheRead loadMsg content mod with
        | Except.error e => ([], Except.error e)
        | Except.ok msgs =>
          let request : Request :=
            { messages := msgs
              api := mod.api
              model := mod.name
              temperature := ptrOrNil cfg.Temperature
              topP := ptrOrNil cfg.TopP
              topK := ptrOrNil cfg.TopK
              stop := cfg.Stop
              maxTokens := if cfg.MaxTokens > 0 then some cfg.MaxTokens else none
              tools := tools }
          match clientNew with
          | Except.error e =>
            ([Effect.clientCreate],
             Except.error { err := e, reason := "Could not setup ollama client" })
          | Except.ok _ =>
            ([Effect.clientCreate, Effect.openExchange],
             Except.ok (Ollama.clientRequest request backend))

/-- Claim C5: with caching enabled and a read key configured, a failing
cache read surfaces as a fatal setup error — the turn's outcome is
exactly the wrapped cache error, the history is not silently replaced by
an empty one, and neither client creation nor a stream request is ever
reached for that turn. -/
theorem c5_cache_failure_no_exchange (cfg : Config) (api : API) (mod0 : Model)
    (tools : List ToolDef) (e : String)
    (loadMsg : String → Except String String) (clientNew : Except String Unit)
    (backend : Ollama.ChatRequest → List Ollama.ChatResponse) (content : String)
    (hnc : cfg.NoCache = false) (hid : cfg.cacheReadFromID ≠ "")
    (hapi : api.name ≠ "") :
    (startCompletionCmd cfg (Except.ok (api, mod0)) (Except.ok tools)
        (Except.error e) loadMsg clientNew backend content).2 =
      Except.error { err := e, reason := cacheReadReason } ∧
    Effect.openExchange ∉ (startCompletionCmd cfg (Except.ok (api, mod0)) (Except.ok tools)
        (Except.error e) loadMsg clientNew backend content).1 ∧
    Effect.clientCreate ∉ (startCompletionCmd cfg (Except.ok (api, mod0)) (Except.ok tools)
        (Except.error e) loadMsg clientNew backend content).1 := by
  have hsetup : ∀ mod, setupStreamContext cfg (Except.error e) loadMsg content mod =
      Except.error { err := e, reason := cacheReadReason } := by
    intro mod
    simp [setupStreamContext, hnc, hid, Except.mapError]
  simp [startCompletionCmd, hapi, hsetup]

def c5cfg : Config := { cacheReadFromID := "deadbeef" }

def c5api : API := { name := "ollama" }

def c5mod : Model := { name := "llama3.2", MaxChars := 1000 }

theorem c5_cache_failure_no_exchange_witness :
    (startCompletionCmd c5cfg (Except.ok (c5api, c5mod)) (Except.ok [])
        (Except.error "corrupt cache") (fun _ => Except.ok "") (Except.ok ())
        (fun _ => []) "hi").2 =
      Except.error { err := "corrupt cache", reason := cacheReadReason } ∧
    Effect.openExchange ∉ (startCompletionCmd c5cfg (Except.ok (c5api, c5mod)) (Except.ok [])
        (Except.error "corrupt cache") (fun _ => Except.ok "") (Except.ok ())
        (fun _ => []) "hi").1 ∧
    Effect.clientCreate ∉ (startCompletionCmd c5cfg (Except.ok (c5api, c5mod)) (Except.ok [])
        (Except.error "corrupt cache") (fun _ => Except.ok "") (Except.ok ())
        (fun _ => []) "hi").1 :=
  c5_cache_failure_no_exchange c5cfg c5api c5mod [] "corrupt cache"
    (fun _ => Except.ok "") (Except.ok ()) (fun _ => []) "hi" rfl (by decide) (by decide)

end Oi
